import Mathlib

/-!
Verification of the GCbias repository (estDAF.c and makeDFE-alpha.c).

Shallow embedding of:
  * the sorted merge-join cursor loops of `readVcf` (gene / coordinate
    containment lookups and divergence / site point lookups),
  * the table loaders `readGenes`, `readCoord`, `readDiv`,
  * the WS/SW/SS/WW/SS+WW allele classification blocks,
  * the per-gene DAF aggregation of estDAF's `readVcf`,
  * the whole-sample SFS aggregation of makeDFE-alpha's `readVcf`.

Machine `int`s are modelled as `Int` (no overflow is exercised by any
claim); `char` is `Char`; C strings are `String`.  File I/O and printf
formatting are outside the embedding: the loaders consume lists of
already-tokenized lines, the VCF drivers consume lists of parsed variant
lines and accumulate their emitted rows / histogram in an explicit state.
-/

/-! ## The merge-join record and cursor loop

All five cursor loops in the two `readVcf` functions (genes, coords and
div in estDAF; sites and div in makeDFE-alpha) are instances of one
advance pattern over an array of records keyed by `(chr, lo, hi)`:

  while(i < n){
    if(chr == t[i].chr){
      if(pos <= t[i].hi && pos >= t[i].lo){ found; break; }
      else if(pos < t[i].lo) break;            // not found
    }
    else if(chr < t[i].chr) break;             // not found
    i++;
  }

For the interval tables `lo`/`hi` are `start`/`stop`; for the point
tables (div, sites) `lo = hi = pos`, and the C tests
`pos == t[i].pos` / `pos < t[i].pos` coincide with
`pos <= hi && lo <= pos` / `pos < lo`. -/

structure MRec where
  chr : Int
  lo : Int
  hi : Int
deriving Repr, DecidableEq

/-- One run of the cursor loop, scanning the suffix `l` of the table that
starts at index `c`; returns the found flag and the final cursor. -/
def locateGo (chr pos : Int) : List MRec → Nat → Bool × Nat
  | [], c => (false, c)
  | r :: rs, c =>
    if chr = r.chr then
      if pos ≤ r.hi ∧ r.lo ≤ pos then (true, c)
      else if pos < r.lo then (false, c)
      else locateGo chr pos rs (c + 1)
    else if chr < r.chr then (false, c)
    else locateGo chr pos rs (c + 1)

/-- The cursor loop on table `t` starting from cursor `c` (the persistent
`gene_i` / `coord_i` / `div_i` / `site_i` variables of `readVcf`). -/
def locate (t : List MRec) (chr pos : Int) (c : Nat) : Bool × Nat :=
  locateGo chr pos (t.drop c) c

/-- The table-sort precondition stated by the spec: non-decreasing in
(chromosome, position/start). -/
def tableSorted : List MRec → Bool
  | [] => true
  | [_] => true
  | a :: b :: rest =>
    (decide (a.chr < b.chr) || (decide (a.chr = b.chr) && decide (a.lo ≤ b.lo)))
      && tableSorted (b :: rest)

theorem locateGo_mono (chr pos : Int) :
    ∀ (l : List MRec) (c : Nat), c ≤ (locateGo chr pos l c).2 := by
  intro l
  induction l with
  | nil => intro c; exact Nat.le_refl c
  | cons r rs ih =>
    intro c
    simp only [locateGo]
    split
    · split
      · exact Nat.le_refl c
      · split
        · exact Nat.le_refl c
        · exact Nat.le_trans (Nat.le_succ c) (ih (c + 1))
    · split
      · exact Nat.le_refl c
      · exact Nat.le_trans (Nat.le_succ c) (ih (c + 1))

theorem locate_mono (t : List MRec) (chr pos : Int) (c : Nat) :
    c ≤ (locate t chr pos c).2 :=
  locateGo_mono chr pos (t.drop c) c

/-- Core stability lemma: re-running a query `p2 ≥ p1` from the cursor
left behind by the `p1` query gives the same run as querying `p2` from
the original cursor. -/
theorem locateGo_stable (chr p1 p2 : Int) (hp : p1 ≤ p2) :
    ∀ (l : List MRec) (c : Nat),
      locateGo chr p2 (l.drop ((locateGo chr p1 l c).2 - c)) (locateGo chr p1 l c).2
        = locateGo chr p2 l c := by
  intro l
  induction l with
  | nil =>
    intro c
    simp [locateGo]
  | cons r rs ih =>
    intro c
    by_cases hchr : chr = r.chr
    · by_cases hfound : p1 ≤ r.hi ∧ r.lo ≤ p1
      · simp [locateGo, hchr, hfound]
      · by_cases hstop : p1 < r.lo
        · simp [locateGo, hchr, hfound, hstop]
        · -- the p1 query advances past r; show the p2 query does too
          have hlo : r.lo ≤ p1 := Int.not_lt.mp hstop
          have hhi : r.hi < p1 := by
            by_contra hcon
            exact hfound ⟨Int.not_lt.mp hcon, hlo⟩
          have hfound2 : ¬(p2 ≤ r.hi ∧ r.lo ≤ p2) := by
            intro hcon
            exact Int.not_le.mpr (Int.lt_of_lt_of_le hhi hp) hcon.1
          have hstop2 : ¬(p2 < r.lo) :=
            Int.not_lt.mpr (Int.le_trans hlo hp)
          have hadv : c + 1 ≤ (locateGo chr p1 rs (c + 1)).2 :=
            locateGo_mono chr p1 rs (c + 1)
          have hrec : locateGo chr p1 (r :: rs) c = locateGo chr p1 rs (c + 1) := by
            simp [locateGo, hchr, hfound, hstop]
          have hdrop :
              (r :: rs).drop ((locateGo chr p1 rs (c + 1)).2 - c)
                = rs.drop ((locateGo chr p1 rs (c + 1)).2 - (c + 1)) := by
            have h1 : (locateGo chr p1 rs (c + 1)).2 - c
                = ((locateGo chr p1 rs (c + 1)).2 - (c + 1)) + 1 := by
              omega
            rw [h1]
            rfl
          rw [hrec, hdrop, ih (c + 1)]
          simp [locateGo, hchr, hfound2, hstop2]
    · by_cases hlt : chr < r.chr
      · simp [locateGo, hchr, hlt]
      · have hadv : c + 1 ≤ (locateGo chr p1 rs (c + 1)).2 :=
          locateGo_mono chr p1 rs (c + 1)
        have hrec : locateGo chr p1 (r :: rs) c = locateGo chr p1 rs (c + 1) := by
          simp [locateGo, hchr, hlt]
        have hdrop :
            (r :: rs).drop ((locateGo chr p1 rs (c + 1)).2 - c)
              = rs.drop ((locateGo chr p1 rs (c + 1)).2 - (c + 1)) := by
          have h1 : (locateGo chr p1 rs (c + 1)).2 - c
              = ((locateGo chr p1 rs (c + 1)).2 - (c + 1)) + 1 := by
            omega
          rw [h1]
          rfl
        rw [hrec, hdrop, ih (c + 1)]
        simp [locateGo, hchr, hlt]

theorem locate_stable (t : List MRec) (chr p1 p2 : Int) (hp : p1 ≤ p2) (c : Nat) :
    locate t chr p2 (locate t chr p1 c).2 = locate t chr p2 c := by
  have hc : c ≤ (locateGo chr p1 (t.drop c) c).2 := locateGo_mono chr p1 (t.drop c) c
  show locateGo chr p2 (t.drop (locateGo chr p1 (t.drop c) c).2)
      (locateGo chr p1 (t.drop c) c).2 = locateGo chr p2 (t.drop c) c
  have hdrop : t.drop (locateGo chr p1 (t.drop c) c).2
      = (t.drop c).drop ((locateGo chr p1 (t.drop c) c).2 - c) := by
    rw [List.drop_drop]
    congr 1
    omega
  rw [hdrop]
  exact locateGo_stable chr p1 p2 hp (t.drop c) c

/-- Claim C1: for every auxiliary table sorted by (chromosome, position)
and same-chromosome queries p1 < p2 issued in order, the merge-join
lookup (containment for gene/coordinate tables, point-equality for the
divergence table, both instances of `locate`) advances its cursor only
forward — never backward, never resetting — and returns for each query
the same Found/NotFound result that an independent scan of the whole
table from index 0 would return. -/
theorem c1_merge_join_cursor (t : List MRec) (chr p1 p2 : Int)
    (hs : tableSorted t = true) (hp : p1 < p2) :
    (∀ (p : Int) (c : Nat), c ≤ (locate t chr p c).2) ∧
    (∀ c : Nat, locate t chr p2 (locate t chr p1 c).2 = locate t chr p2 c) ∧
    locate t chr p2 (locate t chr p1 0).2 = locate t chr p2 0 := by
  refine ⟨fun p c => locate_mono t chr p c, fun c => ?_, ?_⟩
  · exact locate_stable t chr p1 p2 (Int.le_of_lt hp) c
  · exact locate_stable t chr p1 p2 (Int.le_of_lt hp) 0

/-- Witness for C1 on a concrete sorted two-interval table with queries
p1 = 5 and p2 = 15. -/
theorem c1_merge_join_cursor_witness :
    tableSorted [⟨1, 1, 3⟩, ⟨1, 10, 20⟩] = true ∧ (5 : Int) < 15 ∧
    locate [⟨1, 1, 3⟩, ⟨1, 10, 20⟩] 1 15 (locate [⟨1, 1, 3⟩, ⟨1, 10, 20⟩] 1 5 0).2
      = locate [⟨1, 1, 3⟩, ⟨1, 10, 20⟩] 1 15 0 :=
  ⟨by decide, by decide,
    (c1_merge_join_cursor [⟨1, 1, 3⟩, ⟨1, 10, 20⟩] 1 5 15 (by decide) (by decide)).2.2⟩

/-! ## estDAF.c data model

`Region_s {int chr, start, stop; char id[50]}` and
`Site_s {int chr, pos; char ref, alt}`. -/

structure Region where
  chr : Int
  start : Int
  stop : Int
  id : String
deriving Repr, DecidableEq

structure Site where
  chr : Int
  pos : Int
  ref : Char
  alt : Char
deriving Repr, DecidableEq

/-- A parsed variant line of the VCF stream: column 1 (chromosome,
numeric-leading lines only — others are skipped before this model),
column 2 (position), first characters of columns 4 and 5 (ref/alt), and
for each genotype column 10.. the pair (temp[0], temp[2]). -/
structure VLine where
  chr : Int
  pos : Int
  ref : Char
  alt : Char
  genos : List (Char × Char)
deriving Repr, DecidableEq

def dummyRegion : Region := ⟨0, 0, 0, ""⟩

def dummySite : Site := ⟨0, 0, 'N', 'N'⟩

/-- An interval record as seen by the cursor loop (`lo`/`hi` are
`start`/`stop`). -/
def regionRec (r : Region) : MRec := ⟨r.chr, r.start, r.stop⟩

/-- A point record as seen by the cursor loop: `lo = hi = pos`, so
Found means exact position equality, as in the C `==`/`<` chain. -/
def siteRec (s : Site) : MRec := ⟨s.chr, s.pos, s.pos⟩

def pointRec (p : Int × Int) : MRec := ⟨p.1, p.2, p.2⟩

def geneLookup (genes : List Region) (v : VLine) (c : Nat) : Bool × Nat :=
  locate (genes.map regionRec) v.chr v.pos c

def coordLookup (coords : List Region) (v : VLine) (c : Nat) : Bool × Nat :=
  locate (coords.map regionRec) v.chr v.pos c

def divLookup (dv : List Site) (v : VLine) (c : Nat) : Bool × Nat :=
  locate (dv.map siteRec) v.chr v.pos c

def siteLookup (sites : List (Int × Int)) (v : VLine) (c : Nat) : Bool × Nat :=
  locate (sites.map pointRec) v.chr v.pos c

/-! ## Allele classification (the `-gc` blocks of the two `readVcf`s) -/

/-- estDAF.c classification block (lines 358-388): `ok` as a function of
`gc`, `rd` and the variant's ref/alt first characters.  Evaluated only
when `gc != 0`. -/
def eligibleDaf (gc : Nat) (rd : Bool) (ref alt : Char) : Bool :=
  if gc == 3 then (ref == 'G' && alt == 'C') || (ref == 'C' && alt == 'G')
  else if gc == 4 then (ref == 'A' && alt == 'T') || (ref == 'T' && alt == 'A')
  else if gc == 5 then
    ((ref == 'G' && alt == 'C') || (ref == 'C' && alt == 'G'))
      || ((ref == 'A' && alt == 'T') || (ref == 'T' && alt == 'A'))
  else if rd == false then
    (if gc == 1 then (ref == 'A' || ref == 'T') && (alt == 'G' || alt == 'C')
     else if gc == 2 then (ref == 'G' || ref == 'C') && (alt == 'A' || alt == 'T')
     else false)
  else
    (if gc == 1 then (ref == 'G' || ref == 'C') && (alt == 'A' || alt == 'T')
     else if gc == 2 then (ref == 'A' || ref == 'T') && (alt == 'G' || alt == 'C')
     else false)

/-- makeDFE-alpha.c classification block (lines 879-913), which also
admits '.' on either side.  Evaluated only when `gc != 0`. -/
def eligibleDfe (gc : Nat) (rd : Bool) (ref alt : Char) : Bool :=
  if gc == 3 then
    (ref == 'G' || ref == 'C' || ref == '.') && (alt == 'G' || alt == 'C' || alt == '.')
  else if gc == 4 then
    (ref == 'A' || ref == 'T' || ref == '.') && (alt == 'A' || alt == 'T' || alt == '.')
  else if gc == 5 then
    ((ref == 'G' || ref == 'C' || ref == '.') && (alt == 'G' || alt == 'C' || alt == '.'))
      || ((ref == 'A' || ref == 'T' || ref == '.') && (alt == 'A' || alt == 'T' || alt == '.'))
  else if rd == false then
    (if gc == 1 then
      (ref == 'A' || ref == 'T' || ref == '.') && (alt == 'G' || alt == 'C' || alt == '.')
     else if gc == 2 then
      (ref == 'G' || ref == 'C' || ref == '.') && (alt == 'A' || alt == 'T' || alt == '.')
     else false)
  else
    (if gc == 1 then
      (ref == 'G' || ref == 'C' || ref == '.') && (alt == 'A' || alt == 'T' || alt == '.')
     else if gc == 2 then
      (ref == 'A' || ref == 'T' || ref == '.') && (alt == 'G' || alt == 'C' || alt == '.')
     else false)

/-! ## estDAF.c per-gene DAF aggregation (`readVcf`, lines 275-411) -/

/-- Genotype columns counted into `da_i`: when a divergence record was
found (`rd`), homozygous-reference 0/0 calls are the derived ones;
otherwise homozygous-alternate 1/1 calls are. -/
def countDerivedDaf (rd : Bool) (genos : List (Char × Char)) : Nat :=
  genos.countP (fun g =>
    if rd then g.1 == '0' && g.2 == '0' else g.1 == '1' && g.2 == '1')

/-- Genotype columns counted into `a_i`: both read characters non-missing. -/
def countCallable (genos : List (Char × Char)) : Nat :=
  genos.countP (fun g => !(g.1 == '.') && !(g.2 == '.'))

/-- A summary row of estDAF's output: the printed DAF value is the
floating division da / a, kept here as the integer pair. -/
structure DafRow where
  gene : String
  da : Nat
  a : Nat
  s : Nat
deriving Repr, DecidableEq

structure DafState where
  gene_i : Nat
  coord_i : Nat
  div_i : Nat
  gene : Option String
  da : Nat
  a : Nat
  s : Nat
  warn : Nat
  out : List DafRow
deriving Repr, DecidableEq

/-- The gene-key bookkeeping of estDAF (lines 300-311): on the first
match the gene is set (the header print is formatting, not modelled); on
a key change one row with the finished gene's counters is appended and
the counters reset. -/
def flushGene (st : DafState) (gid : String) : DafState :=
  match st.gene with
  | none => { st with gene := some gid }
  | some g0 =>
    if g0 = gid then st
    else { st with out := st.out ++ [⟨g0, st.da, st.a, st.s⟩],
                   da := 0, a := 0, s := 0, gene := some gid }

/-- One digit-leading VCF line of estDAF's `readVcf`.  Mirrors the field
loop: gene containment then coordinate containment (each advancing its
cursor; a failed lookup skips the line), the gene-key flush, the
divergence point lookup, the ref/alt consistency checks against the
divergence record, the `-gc` classification, and the genotype counting
plus `s_i++` for lines that survive every check.  The divergence lookup
uses `div_i`, untouched by the flush, so its placement relative to the
flush is immaterial. -/
def processLineDaf (genes coords : List Region) (dv : List Site) (gc : Nat)
    (st : DafState) (v : VLine) : DafState :=
  let gr := geneLookup genes v st.gene_i
  if gr.1 then
    let cr := coordLookup coords v st.coord_i
    if cr.1 then
      let gid := (genes.getD gr.2 dummyRegion).id
      let dr := divLookup dv v st.div_i
      let rd := dr.1
      let drec := dv.getD dr.2 dummySite
      let stf := { flushGene st gid with
                     gene_i := gr.2, coord_i := cr.2, div_i := dr.2 }
      if rd = true ∧ v.ref ≠ drec.ref then { stf with warn := stf.warn + 1 }
      else if rd = true ∧ v.alt ≠ drec.alt then stf
      else if gc ≠ 0 ∧ eligibleDaf gc rd v.ref v.alt = false then stf
      else { stf with da := stf.da + countDerivedDaf rd v.genos,
                      a := stf.a + countCallable v.genos,
                      s := stf.s + 1 }
    else { st with gene_i := gr.2, coord_i := cr.2 }
  else { st with gene_i := gr.2 }

def initDaf : DafState := ⟨0, 0, 0, none, 0, 0, 0, 0, []⟩

/-- estDAF's `readVcf` over a whole stream of digit-leading variant
lines.  After the loop the C function only frees its buffers: no row is
emitted for the gene in progress. -/
def runDaf (genes coords : List Region) (dv : List Site) (gc : Nat)
    (lines : List VLine) : DafState :=
  lines.foldl (processLineDaf genes coords dv gc) initDaf

/-! ## makeDFE-alpha.c whole-sample SFS aggregation (`readVcf`, lines 794-960) -/

/-- A genotype column as classified by makeDFE-alpha's field loop:
1 for 1/1, 0 for 0/0, 9 for anything else (missing). -/
def genoVal (g : Char × Char) : Nat :=
  if g.1 = '1' ∧ g.2 = '1' then 1
  else if g.1 = '0' ∧ g.2 = '0' then 0
  else 9

/-- One sample's contribution to `count` in the final per-site loop
(lines 933-942): derived calls, plus majority-imputed missing calls. -/
def sampContrib (rd : Bool) (i0 i1 g : Nat) : Nat :=
  if rd = false ∧ g = 1 then 1
  else if rd = false ∧ g = 9 ∧ i1 > i0 then 1
  else if rd = true ∧ g = 0 then 1
  else if rd = true ∧ g = 9 ∧ i0 > i1 then 1
  else 0

/-- The derived-allele count of one site over all genotype columns. -/
def countDfe (rd : Bool) (i0 i1 : Nat) (genos : List (Char × Char)) : Nat :=
  (genos.map (fun g => sampContrib rd i0 i1 (genoVal g))).sum

/-- `sfs[i]++`. -/
def bump (l : List Nat) (i : Nat) : List Nat :=
  l.set i (l.getD i 0 + 1)

structure DfeState where
  site_i : Nat
  div_i : Nat
  sfs : List Nat
  di : Nat
  si : Nat
  warn : Nat
deriving Repr, DecidableEq

/-- The j == 5 skip decision of makeDFE-alpha's field loop: when
`gc != 0`, an alt-mismatch against the divergence record, a './.'
ref/alt pair, or a failed classification rejects the line; when
`gc == 0` this whole block is inactive. -/
def dfeSkip (gc : Nat) (rd : Bool) (ref alt : Char) (drec : Site) : Bool :=
  if gc ≠ 0 then
    if rd = true ∧ alt ≠ drec.alt then true
    else if ref = '.' ∧ alt = '.' then true
    else !(eligibleDfe gc rd ref alt)
  else false

/-- One digit-leading VCF line of makeDFE-alpha's `readVcf`: site point
lookup (failure skips the line), divergence point lookup, ref consistency
check (warning + skip on mismatch), then the `dfeSkip` decision; for a
surviving site the genotype columns are tallied, `sfs[count]++`, `di`
counts sites with a divergence record and `si` all surviving sites. -/
def processLineDfe (sites : List (Int × Int)) (dv : List Site) (gc : Nat)
    (st : DfeState) (v : VLine) : DfeState :=
  let sr := siteLookup sites v st.site_i
  if sr.1 then
    let dr := divLookup dv v st.div_i
    let rd := dr.1
    let drec := dv.getD dr.2 dummySite
    let st1 := { st with site_i := sr.2, div_i := dr.2 }
    if rd = true ∧ v.ref ≠ drec.ref then { st1 with warn := st1.warn + 1 }
    else
      if dfeSkip gc rd v.ref v.alt drec then st1
      else
        let i1 := v.genos.countP (fun g => genoVal g == 1)
        let i0 := v.genos.countP (fun g => genoVal g == 0)
        { st1 with sfs := bump st1.sfs (countDfe rd i0 i1 v.genos),
                   di := if rd then st1.di + 1 else st1.di,
                   si := st1.si + 1 }
  else { st with site_i := sr.2 }

/-- The initial SFS state for `n` samples (`ind_i` from the #CHROM
header): histogram of `n + 1` zero bins. -/
def initDfe (n : Nat) : DfeState := ⟨0, 0, List.replicate (n + 1) 0, 0, 0, 0⟩

/-- makeDFE-alpha's `readVcf` over a stream of digit-leading variant
lines; the final state's `sfs`, `si` and `di` are what the program
prints at end of stream. -/
def runDfe (n : Nat) (sites : List (Int × Int)) (dv : List Site) (gc : Nat)
    (lines : List VLine) : DfeState :=
  lines.foldl (processLineDfe sites dv gc) (initDfe n)

/-! ## The table loaders (estDAF.c lines 161-273)

Each loader consumes the already-tokenized fields each C loop reads via
strtok: `readGenes` uses fields 1-4, `readCoord` fields 1, 2 and 8, and
`readDiv` fields 1, 2, 3 and 8.  `atoiM` models `atoi` on the
strtok-produced token (leading decimal digits; no surrounding
whitespace/sign appears in the guarded uses). -/

def atoiM (s : String) : Int :=
  ((s.toList.takeWhile Char.isDigit).foldl (fun a c => a * 10 + (c.toNat - 48)) 0 : Nat)

def headChar (s : String) : Char := s.toList.headD ' '

structure GeneLine where
  f1 : String
  f2 : String
  f3 : String
  f4 : String
deriving Repr, DecidableEq

structure CoordLine where
  f1 : String
  f2 : String
  f8 : String
deriving Repr, DecidableEq

structure DivLine where
  f1 : String
  f2 : String
  f3 : String
  f8 : String
deriving Repr, DecidableEq

/-- `readGenes`: every line becomes a record (strncpy keeps at most 49
id characters); there is no skip path. -/
def readGenesM : List GeneLine → List Region
  | [] => []
  | l :: ls => ⟨atoiM l.f2, atoiM l.f3, atoiM l.f4, l.f1.take 49⟩ :: readGenesM ls

/-- `readCoord`: the record written at the current slot is committed
(`*n` incremented) only when the 8th field starts with a digit;
otherwise the next line overwrites the slot, i.e. the line is skipped. -/
def readCoordM : List CoordLine → List Region
  | [] => []
  | l :: ls =>
    if (headChar l.f8).isDigit then
      ⟨atoiM l.f8, atoiM l.f1, atoiM l.f2, ""⟩ :: readCoordM ls
    else readCoordM ls

/-- `readDiv` of estDAF.c, with the same lenient commit guard. -/
def readDivM : List DivLine → List Site
  | [] => []
  | l :: ls =>
    if (headChar l.f8).isDigit then
      ⟨atoiM l.f8, atoiM l.f1, headChar l.f2, headChar l.f3⟩ :: readDivM ls
    else readDivM ls

/-! ## Spec-side classification vocabulary (for refinement comparison) -/

/-- Modelled from the spec: A/T = "weak". -/
def weakAllele (c : Char) : Bool := c == 'A' || c == 'T'

/-- Modelled from the spec: G/C = "strong". -/
def strongAllele (c : Char) : Bool := c == 'G' || c == 'C'

/-- Modelled from the spec: WS eligibility of an ancestral→derived pair
(weak ancestral, strong derived). -/
def specWS (anc der : Char) : Bool := weakAllele anc && strongAllele der

/-- Modelled from the spec: SW eligibility of an ancestral→derived pair
(strong ancestral, weak derived). -/
def specSW (anc der : Char) : Bool := strongAllele anc && weakAllele der

/-- Modelled from claim C3's words: "the ancestral allele is whichever
of the variant's reference/alternate alleles matches the substitution
record's reference allele". -/
def claimAncestralC3 (rec : Site) (ref alt : Char) : Char :=
  if ref = rec.ref then ref else alt

def base : Fin 4 → Char
  | 0 => 'A'
  | 1 => 'T'
  | 2 => 'G'
  | 3 => 'C'

/-- Counterexample to claim C3.  Divergence record (chr 1, pos 5,
ref 'A', alt 'G'); variant line ref 'A', alt 'G' at that site inside a
matched gene and alignment block, with -gc 1 (WS).  Under the claim the
ancestral allele is 'A' (it matches the record's reference allele), so
the site is a weak→strong change and WS-eligible; the program instead
excludes it (`s_i` stays 0): with a divergence record it requires a
strong variant-reference and weak variant-alternate, i.e. it takes the
allele matching the record's alternate (outgroup) allele as ancestral. -/
theorem c3_counterexample :
    claimAncestralC3 ⟨1, 5, 'A', 'G'⟩ 'A' 'G' = 'A' ∧
    specWS 'A' 'G' = true ∧
    eligibleDaf 1 true 'A' 'G' = false ∧
    (runDaf [⟨1, 1, 100, "g1"⟩] [⟨1, 1, 100, ""⟩] [⟨1, 5, 'A', 'G'⟩] 1
        [⟨1, 5, 'A', 'G', [('0', '0')]⟩]).gene = some "g1" ∧
    (runDaf [⟨1, 1, 100, "g1"⟩] [⟨1, 1, 100, ""⟩] [⟨1, 5, 'A', 'G'⟩] 1
        [⟨1, 5, 'A', 'G', [('0', '0')]⟩]).s = 0 := by
  refine ⟨rfl, rfl, rfl, ?_, ?_⟩ <;> rfl

/-- Claim C3 as amended: when a substitution record exists (`rd`), the
site is only used if the variant's ref/alt equal the record's ref/alt,
and the ancestral allele is the one matching the record's ALTERNATE
(outgroup) allele — i.e. the variant's alternate; WS/SW and the
per-sample derived calls are evaluated relative to that
ancestral(=alt)→derived(=ref) orientation (0/0 calls are derived).
Without a record the reference is ancestral (1/1 calls are derived). -/
theorem c3_amended_polarity : ∀ (ref alt : Char) (genos : List (Char × Char)),
    eligibleDaf 1 true ref alt = specWS alt ref ∧
    eligibleDaf 2 true ref alt = specSW alt ref ∧
    eligibleDaf 1 false ref alt = specWS ref alt ∧
    eligibleDaf 2 false ref alt = specSW ref alt ∧
    countDerivedDaf true genos = genos.countP (fun g => g.1 == '0' && g.2 == '0') ∧
    countDerivedDaf false genos = genos.countP (fun g => g.1 == '1' && g.2 == '1') ∧
    (∀ i j : Fin 4,
      eligibleDfe 1 true (base i) (base j) = specWS (base j) (base i) ∧
      eligibleDfe 2 true (base i) (base j) = specSW (base j) (base i) ∧
      eligibleDfe 1 false (base i) (base j) = specWS (base i) (base j) ∧
      eligibleDfe 2 false (base i) (base j) = specSW (base i) (base j)) ∧
    (∀ i0 i1 : Nat,
      sampContrib true i0 i1 0 = 1 ∧ sampContrib true i0 i1 1 = 0 ∧
      sampContrib false i0 i1 1 = 1 ∧ sampContrib false i0 i1 0 = 0) := by
  intro ref alt genos
  refine ⟨Bool.and_comm _ _, Bool.and_comm _ _, rfl, rfl, rfl, rfl, by decide, ?_⟩
  intro i0 i1
  exact ⟨rfl, rfl, rfl, rfl⟩

/-- Claim C4: over ordered pairs from {A,T,G,C}² (and both polarity
states), each classification mode yields a definite Boolean verdict, and
mode 5 (SS+WW) is eligible exactly when mode 3 (SS) or mode 4 (WW) is —
in both programs' classification blocks. -/
theorem c4_ssww_disjunction : ∀ (i j : Fin 4) (rd : Bool),
    (eligibleDaf 5 rd (base i) (base j)
      = (eligibleDaf 3 rd (base i) (base j) || eligibleDaf 4 rd (base i) (base j))) ∧
    (eligibleDfe 5 rd (base i) (base j)
      = (eligibleDfe 3 rd (base i) (base j) || eligibleDfe 4 rd (base i) (base j))) ∧
    (∀ m : Fin 6, eligibleDaf m.1 rd (base i) (base j) = true
      ∨ eligibleDaf m.1 rd (base i) (base j) = false) ∧
    (∀ m : Fin 6, eligibleDfe m.1 rd (base i) (base j) = true
      ∨ eligibleDfe m.1 rd (base i) (base j) = false) := by
  decide

/-- Counterexample to claim C8.  A site with unresolved polarity (no
divergence record, rd = 0) and a tie among non-missing calls
(i0 = i1 = 1) plus one missing call: the program imputes the missing
call to the REFERENCE (it contributes 0 to the derived count, so the
site lands in histogram bin 1, not bin 2), even though the alternate
count is not strictly less than the reference count — refuting
"imputation to reference only if the alternate count is strictly less". -/
theorem c8_counterexample :
    sampContrib false 1 1 9 = 0 ∧ ¬(1 < 1) ∧
    (runDfe 3 [(1, 5)] [] 0
        [⟨1, 5, 'A', 'G', [('0', '0'), ('1', '1'), ('.', '.')]⟩]).sfs
      = [0, 1, 0, 0] := by
  refine ⟨rfl, by decide, ?_⟩
  rfl

/-- Claim C8 as amended: with unresolved polarity a missing call is
imputed to the alternate (counted as derived) exactly when the alternate
count is strictly greater than the reference count, so a tie imputes to
the reference; symmetrically, with resolved polarity a missing call is
imputed to the (derived) reference exactly when the alternate count is
strictly less, and a tie imputes to the (ancestral) alternate. -/
theorem c8_amended_imputation : ∀ i0 i1 : Nat,
    sampContrib false i0 i1 9 = (if i1 > i0 then 1 else 0) ∧
    sampContrib true i0 i1 9 = (if i0 > i1 then 1 else 0) ∧
    sampContrib false i0 i0 9 = 0 ∧
    sampContrib true i0 i0 9 = 0 := by
  intro i0 i1
  refine ⟨?_, ?_, ?_, ?_⟩ <;> simp [sampContrib]

/-- Claim C2, evaluated at the failing input (code_bug).  One gene "g1"
containing one aligned variant line; the stream then ends.  estDAF's
`readVcf` leaves the loop with the accumulated counters
(da = a = s = 1) and gene key "g1" still pending and emits NO row: rows
are printed only inside the loop on a gene-key change, and after the
loop the function only frees its buffers, so the last gene's row is
dropped. -/
theorem c2_last_gene_not_flushed :
    (runDaf [⟨1, 1, 100, "g1"⟩] [⟨1, 1, 100, ""⟩] [] 0
        [⟨1, 5, 'A', 'G', [('1', '1')]⟩]).out = [] ∧
    (runDaf [⟨1, 1, 100, "g1"⟩] [⟨1, 1, 100, ""⟩] [] 0
        [⟨1, 5, 'A', 'G', [('1', '1')]⟩]).gene = some "g1" ∧
    (runDaf [⟨1, 1, 100, "g1"⟩] [⟨1, 1, 100, ""⟩] [] 0
        [⟨1, 5, 'A', 'G', [('1', '1')]⟩]).da = 1 ∧
    (runDaf [⟨1, 1, 100, "g1"⟩] [⟨1, 1, 100, ""⟩] [] 0
        [⟨1, 5, 'A', 'G', [('1', '1')]⟩]).a = 1 ∧
    (runDaf [⟨1, 1, 100, "g1"⟩] [⟨1, 1, 100, ""⟩] [] 0
        [⟨1, 5, 'A', 'G', [('1', '1')]⟩]).s = 1 := by
  refine ⟨?_, ?_, ?_, ?_, ?_⟩ <;> rfl

theorem readCoordM_filter : ∀ cls : List CoordLine,
    readCoordM cls
      = (cls.filter (fun l => (headChar l.f8).isDigit)).map
          (fun l => ⟨atoiM l.f8, atoiM l.f1, atoiM l.f2, ""⟩) := by
  intro cls
  induction cls with
  | nil => rfl
  | cons l ls ih =>
    by_cases h : (headChar l.f8).isDigit
    · simp [readCoordM, List.filter_cons, h, ih]
    · simp [readCoordM, List.filter_cons, h, ih]

theorem readDivM_filter : ∀ dls : List DivLine,
    readDivM dls
      = (dls.filter (fun l => (headChar l.f8).isDigit)).map
          (fun l => ⟨atoiM l.f8, atoiM l.f1, headChar l.f2, headChar l.f3⟩) := by
  intro dls
  induction dls with
  | nil => rfl
  | cons l ls ih =>
    by_cases h : (headChar l.f8).isDigit
    · simp [readDivM, List.filter_cons, h, ih]
    · simp [readDivM, List.filter_cons, h, ih]

theorem readGenesM_map : ∀ gls : List GeneLine,
    readGenesM gls
      = gls.map (fun l => ⟨atoiM l.f2, atoiM l.f3, atoiM l.f4, l.f1.take 49⟩) := by
  intro gls
  induction gls with
  | nil => rfl
  | cons l ls ih => simp [readGenesM, ih]

/-- Claim C7: the coordinate and divergence loaders keep exactly the
lines whose 8th (last-read) field starts with a decimal digit — any
other line is silently dropped, producing no record and no error — while
the gene loader turns every input line into a record. -/
theorem c7_loader_leniency
    (cls : List CoordLine) (dls : List DivLine) (gls : List GeneLine) :
    readCoordM cls
      = (cls.filter (fun l => (headChar l.f8).isDigit)).map
          (fun l => ⟨atoiM l.f8, atoiM l.f1, atoiM l.f2, ""⟩) ∧
    readDivM dls
      = (dls.filter (fun l => (headChar l.f8).isDigit)).map
          (fun l => ⟨atoiM l.f8, atoiM l.f1, headChar l.f2, headChar l.f3⟩) ∧
    readGenesM gls
      = gls.map (fun l => ⟨atoiM l.f2, atoiM l.f3, atoiM l.f4, l.f1.take 49⟩) ∧
    (readGenesM gls).length = gls.length := by
  refine ⟨readCoordM_filter cls, readDivM_filter dls, readGenesM_map gls, ?_⟩
  rw [readGenesM_map gls, List.length_map]

theorem flushGene_warn (st : DafState) (gid : String) :
    (flushGene st gid).warn = st.warn := by
  unfold flushGene
  cases st.gene with
  | none => rfl
  | some g0 =>
    by_cases h : g0 = gid
    · simp [h]
    · simp [h]

/-- Claim C6: in both programs, a variant site with a matching
divergence record whose variant-line reference allele differs from the
record's reference allele records one warning, contributes nothing to
any aggregate (in estDAF nothing beyond the gene-key flush that already
happened on matching; in makeDFE-alpha nothing at all), only advances
the cursors, and processing continues — the functions are total, so no
crash or termination occurs. -/
theorem c6_ref_mismatch_warning
    (genes coords : List Region) (dv dv2 : List Site) (sites : List (Int × Int))
    (gc gc2 : Nat) (st : DafState) (st2 : DfeState) (v w : VLine)
    (hg : (geneLookup genes v st.gene_i).1 = true)
    (hc : (coordLookup coords v st.coord_i).1 = true)
    (hr : (divLookup dv v st.div_i).1 = true)
    (hm : v.ref ≠ (dv.getD (divLookup dv v st.div_i).2 dummySite).ref)
    (hs2 : (siteLookup sites w st2.site_i).1 = true)
    (hr2 : (divLookup dv2 w st2.div_i).1 = true)
    (hm2 : w.ref ≠ (dv2.getD (divLookup dv2 w st2.div_i).2 dummySite).ref) :
    processLineDaf genes coords dv gc st v
      = { flushGene st ((genes.getD (geneLookup genes v st.gene_i).2 dummyRegion).id) with
            gene_i := (geneLookup genes v st.gene_i).2,
            coord_i := (coordLookup coords v st.coord_i).2,
            div_i := (divLookup dv v st.div_i).2,
            warn := st.warn + 1 } ∧
    processLineDfe sites dv2 gc2 st2 w
      = { st2 with site_i := (siteLookup sites w st2.site_i).2,
                   div_i := (divLookup dv2 w st2.div_i).2,
                   warn := st2.warn + 1 } := by
  constructor
  · simp only [processLineDaf, hg, hc, hr, if_true, true_and]
    rw [if_pos hm]
    rw [flushGene_warn]
  · simp only [processLineDfe, hs2, hr2, if_true, true_and]
    rw [if_pos hm2]

/-- Witness for C6: a concrete divergence record (1, 5, A→G) against
variant lines whose reference allele is 'C'; both programs register one
warning and count nothing. -/
theorem c6_ref_mismatch_warning_witness :
    (processLineDaf [⟨1, 1, 100, "g1"⟩] [⟨1, 1, 100, ""⟩] [⟨1, 5, 'A', 'G'⟩] 0
        initDaf ⟨1, 5, 'C', 'G', [('1', '1')]⟩).warn = 1 ∧
    (processLineDaf [⟨1, 1, 100, "g1"⟩] [⟨1, 1, 100, ""⟩] [⟨1, 5, 'A', 'G'⟩] 0
        initDaf ⟨1, 5, 'C', 'G', [('1', '1')]⟩).s = 0 ∧
    (processLineDfe [(1, 5)] [⟨1, 5, 'A', 'G'⟩] 0
        (initDfe 1) ⟨1, 5, 'C', 'G', [('0', '0')]⟩).warn = 1 ∧
    (processLineDfe [(1, 5)] [⟨1, 5, 'A', 'G'⟩] 0
        (initDfe 1) ⟨1, 5, 'C', 'G', [('0', '0')]⟩).si = 0 := by
  have h := c6_ref_mismatch_warning
    [⟨1, 1, 100, "g1"⟩] [⟨1, 1, 100, ""⟩] [⟨1, 5, 'A', 'G'⟩] [⟨1, 5, 'A', 'G'⟩]
    [(1, 5)] 0 0 initDaf (initDfe 1)
    ⟨1, 5, 'C', 'G', [('1', '1')]⟩ ⟨1, 5, 'C', 'G', [('0', '0')]⟩
    (by decide) (by decide) (by decide) (by decide) (by decide) (by decide) (by decide)
  refine ⟨by rw [h.1]; rfl, by rw [h.1]; rfl, by rw [h.2]; rfl, by rw [h.2]; rfl⟩

/-- Counterexample to claim C10.  estDAF with -gc 0: a variant line that
passes the whole merge-join (gene, coordinate and divergence match — the
gene key is set to "g1") is nevertheless NOT treated as eligible,
because its alternate allele 'C' differs from the divergence record's
alternate 'G': the alt-consistency check sits outside the `gc != 0`
block, so even with the category filter off a matched line can be
excluded on account of its alleles (s and a stay 0). -/
theorem c10_counterexample :
    (runDaf [⟨1, 1, 100, "g1"⟩] [⟨1, 1, 100, ""⟩] [⟨1, 5, 'A', 'G'⟩] 0
        [⟨1, 5, 'A', 'C', [('1', '1')]⟩]).gene = some "g1" ∧
    (runDaf [⟨1, 1, 100, "g1"⟩] [⟨1, 1, 100, ""⟩] [⟨1, 5, 'A', 'G'⟩] 0
        [⟨1, 5, 'A', 'C', [('1', '1')]⟩]).s = 0 ∧
    (runDaf [⟨1, 1, 100, "g1"⟩] [⟨1, 1, 100, ""⟩] [⟨1, 5, 'A', 'G'⟩] 0
        [⟨1, 5, 'A', 'C', [('1', '1')]⟩]).a = 0 := by
  refine ⟨?_, ?_, ?_⟩ <;> rfl

/-- Claim C10 as amended: with gc = 0 the WS/SW/SS/WW/SS+WW category
filter is bypassed — no line is excluded by it — but the
divergence-consistency checks still apply.  In estDAF any matched line
passing the ref and alt consistency checks is counted, whatever its
alleles; in makeDFE-alpha (where with gc = 0 even the alt check is
skipped) any matched line passing the ref check is counted, whatever
its alleles. -/
theorem c10_gc_zero_bypasses_category_filter
    (genes coords : List Region) (dv dv2 : List Site) (sites : List (Int × Int))
    (st : DafState) (st2 : DfeState) (v w : VLine)
    (hg : (geneLookup genes v st.gene_i).1 = true)
    (hc : (coordLookup coords v st.coord_i).1 = true)
    (hra : ¬((divLookup dv v st.div_i).1 = true ∧
              v.ref ≠ (dv.getD (divLookup dv v st.div_i).2 dummySite).ref))
    (hrb : ¬((divLookup dv v st.div_i).1 = true ∧
              v.alt ≠ (dv.getD (divLookup dv v st.div_i).2 dummySite).alt))
    (hs2 : (siteLookup sites w st2.site_i).1 = true)
    (hm2 : ¬((divLookup dv2 w st2.div_i).1 = true ∧
              w.ref ≠ (dv2.getD (divLookup dv2 w st2.div_i).2 dummySite).ref)) :
    processLineDaf genes coords dv 0 st v
      = { flushGene st ((genes.getD (geneLookup genes v st.gene_i).2 dummyRegion).id) with
            gene_i := (geneLookup genes v st.gene_i).2,
            coord_i := (coordLookup coords v st.coord_i).2,
            div_i := (divLookup dv v st.div_i).2,
            da := (flushGene st ((genes.getD (geneLookup genes v st.gene_i).2
                    dummyRegion).id)).da
                  + countDerivedDaf (divLookup dv v st.div_i).1 v.genos,
            a := (flushGene st ((genes.getD (geneLookup genes v st.gene_i).2
                    dummyRegion).id)).a + countCallable v.genos,
            s := (flushGene st ((genes.getD (geneLookup genes v st.gene_i).2
                    dummyRegion).id)).s + 1 } ∧
    processLineDfe sites dv2 0 st2 w
      = { st2 with site_i := (siteLookup sites w st2.site_i).2,
                   div_i := (divLookup dv2 w st2.div_i).2,
                   sfs := bump st2.sfs (countDfe (divLookup dv2 w st2.div_i).1
                     (w.genos.countP (fun g => genoVal g == 0))
                     (w.genos.countP (fun g => genoVal g == 1)) w.genos),
                   di := if (divLookup dv2 w st2.div_i).1 then st2.di + 1 else st2.di,
                   si := st2.si + 1 } := by
  constructor
  · simp only [processLineDaf, hg, hc, if_true]
    rw [if_neg hra, if_neg hrb, if_neg]
    intro hcon
    exact hcon.1 rfl
  · simp only [processLineDfe, hs2, if_true]
    rw [if_neg hm2]
    rfl

/-- Witness for C10: variant lines with non-nucleotide alleles 'Z'/'Q'
and no divergence record are still counted by both programs when
gc = 0. -/
theorem c10_gc_zero_bypasses_category_filter_witness :
    (processLineDaf [⟨1, 1, 100, "g1"⟩] [⟨1, 1, 100, ""⟩] [] 0
        initDaf ⟨1, 5, 'Z', 'Q', [('1', '1')]⟩).s = 1 ∧
    (processLineDfe [(1, 5)] [] 0 (initDfe 1) ⟨1, 5, 'Z', 'Q', [('1', '1')]⟩).si = 1 := by
  have h := c10_gc_zero_bypasses_category_filter
    [⟨1, 1, 100, "g1"⟩] [⟨1, 1, 100, ""⟩] [] [] [(1, 5)]
    initDaf (initDfe 1) ⟨1, 5, 'Z', 'Q', [('1', '1')]⟩ ⟨1, 5, 'Z', 'Q', [('1', '1')]⟩
    (by decide) (by decide) (by decide) (by decide) (by decide) (by decide)
  exact ⟨by rw [h.1]; rfl, by rw [h.2]; rfl⟩

theorem sampContrib_le_one (rd : Bool) (i0 i1 g : Nat) :
    sampContrib rd i0 i1 g ≤ 1 := by
  unfold sampContrib
  repeat' split
  all_goals omega

theorem countDfe_le_length (rd : Bool) (i0 i1 : Nat) :
    ∀ genos : List (Char × Char), countDfe rd i0 i1 genos ≤ genos.length := by
  intro genos
  induction genos with
  | nil => simp [countDfe]
  | cons g gs ih =>
    simp only [countDfe, List.map_cons, List.sum_cons, List.length_cons]
    have h1 := sampContrib_le_one rd i0 i1 (genoVal g)
    have h2 : (gs.map (fun g => sampContrib rd i0 i1 (genoVal g))).sum ≤ gs.length := ih
    omega

theorem bump_length (l : List Nat) (i : Nat) : (bump l i).length = l.length := by
  unfold bump
  exact List.length_set l i _

theorem bump_sum : ∀ (l : List Nat) (i : Nat), i < l.length → (bump l i).sum = l.sum + 1 := by
  intro l
  induction l with
  | nil =>
    intro i h
    simp at h
  | cons a as ih =>
    intro i h
    cases i with
    | zero =>
      simp only [bump, List.getD_cons_zero, List.set_cons_zero, List.sum_cons]
      omega
    | succ i =>
      have h2 : i < as.length := by
        simpa using Nat.lt_of_succ_lt_succ h
      simp only [bump, List.getD_cons_succ, List.set_cons_succ, List.sum_cons]
      have h3 := ih i h2
      simp only [bump] at h3
      omega

theorem processLineDfe_inv (sites : List (Int × Int)) (dv : List Site) (gc n : Nat)
    (st : DfeState) (v : VLine) (hlen : v.genos.length = n)
    (h1 : st.sfs.length = n + 1) (h2 : st.sfs.sum = st.si) (h3 : st.di ≤ st.si) :
    (processLineDfe sites dv gc st v).sfs.length = n + 1 ∧
    (processLineDfe sites dv gc st v).sfs.sum = (processLineDfe sites dv gc st v).si ∧
    (processLineDfe sites dv gc st v).di ≤ (processLineDfe sites dv gc st v).si := by
  simp only [processLineDfe]
  split
  · split
    · exact ⟨h1, h2, h3⟩
    · split
      · exact ⟨h1, h2, h3⟩
      · have hle := countDfe_le_length (divLookup dv v st.div_i).1
          (v.genos.countP (fun g => genoVal g == 0))
          (v.genos.countP (fun g => genoVal g == 1)) v.genos
        have hcnt : countDfe (divLookup dv v st.div_i).1
            (v.genos.countP (fun g => genoVal g == 0))
            (v.genos.countP (fun g => genoVal g == 1)) v.genos < st.sfs.length := by
          omega
        refine ⟨?_, ?_, ?_⟩
        · rw [bump_length]
          exact h1
        · rw [bump_sum st.sfs _ hcnt, h2]
        · show (if (divLookup dv v st.div_i).1 = true then st.di + 1 else st.di)
            ≤ st.si + 1
          split
          · omega
          · omega
  · exact ⟨h1, h2, h3⟩

theorem runDfe_loop_inv (sites : List (Int × Int)) (dv : List Site) (gc n : Nat) :
    ∀ (lines : List VLine) (st : DfeState),
      (∀ v ∈ lines, v.genos.length = n) →
      st.sfs.length = n + 1 → st.sfs.sum = st.si → st.di ≤ st.si →
      ((lines.foldl (processLineDfe sites dv gc) st).sfs.length = n + 1 ∧
       (lines.foldl (processLineDfe sites dv gc) st).sfs.sum
         = (lines.foldl (processLineDfe sites dv gc) st).si ∧
       (lines.foldl (processLineDfe sites dv gc) st).di
         ≤ (lines.foldl (processLineDfe sites dv gc) st).si) := by
  intro lines
  induction lines with
  | nil =>
    intro st h hl hsum hdi
    exact ⟨hl, hsum, hdi⟩
  | cons v vs ih =>
    intro st h hl hsum hdi
    simp only [List.foldl_cons]
    have hv : v.genos.length = n := h v (List.mem_cons_self v vs)
    have hstep := processLineDfe_inv sites dv gc n st v hv hl hsum hdi
    exact ih (processLineDfe sites dv gc st v)
      (fun u hu => h u (List.mem_cons_of_mem v hu)) hstep.1 hstep.2.1 hstep.2.2

/-- Claim C9: over any stream in which every variant line carries the
sample count `n` of genotype columns, the emitted SFS histogram has
exactly n+1 bins, the bins sum to the emitted total eligible-site count
`si`, and the emitted divergence count `di` never exceeds `si`. -/
theorem c9_sfs_invariants (n : Nat) (sites : List (Int × Int)) (dv : List Site)
    (gc : Nat) (lines : List VLine) (h : ∀ v ∈ lines, v.genos.length = n) :
    (runDfe n sites dv gc lines).sfs.length = n + 1 ∧
    (runDfe n sites dv gc lines).sfs.sum = (runDfe n sites dv gc lines).si ∧
    (runDfe n sites dv gc lines).di ≤ (runDfe n sites dv gc lines).si := by
  have h0l : (initDfe n).sfs.length = n + 1 := by simp [initDfe]
  have h0s : (initDfe n).sfs.sum = (initDfe n).si := by simp [initDfe]
  have h0d : (initDfe n).di ≤ (initDfe n).si := Nat.le_refl 0
  exact runDfe_loop_inv sites dv gc n lines (initDfe n) h h0l h0s h0d

/-- Witness for C9 on a concrete two-sample stream with one counted
variant site and one line skipped by the site filter. -/
theorem c9_sfs_invariants_witness :
    (runDfe 2 [(1, 5)] [] 0
        [⟨1, 5, 'A', 'G', [('0', '0'), ('1', '1')]⟩,
         ⟨1, 9, 'A', 'G', [('1', '1'), ('1', '1')]⟩]).sfs.length = 2 + 1 ∧
    (runDfe 2 [(1, 5)] [] 0
        [⟨1, 5, 'A', 'G', [('0', '0'), ('1', '1')]⟩,
         ⟨1, 9, 'A', 'G', [('1', '1'), ('1', '1')]⟩]).sfs.sum
      = (runDfe 2 [(1, 5)] [] 0
        [⟨1, 5, 'A', 'G', [('0', '0'), ('1', '1')]⟩,
         ⟨1, 9, 'A', 'G', [('1', '1'), ('1', '1')]⟩]).si ∧
    (runDfe 2 [(1, 5)] [] 0
        [⟨1, 5, 'A', 'G', [('0', '0'), ('1', '1')]⟩,
         ⟨1, 9, 'A', 'G', [('1', '1'), ('1', '1')]⟩]).di
      ≤ (runDfe 2 [(1, 5)] [] 0
        [⟨1, 5, 'A', 'G', [('0', '0'), ('1', '1')]⟩,
         ⟨1, 9, 'A', 'G', [('1', '1'), ('1', '1')]⟩]).si :=
  c9_sfs_invariants 2 [(1, 5)] []
    0 [⟨1, 5, 'A', 'G', [('0', '0'), ('1', '1')]⟩,
       ⟨1, 9, 'A', 'G', [('1', '1'), ('1', '1')]⟩] (by decide)
